import Mathlib

/-!
Shallow embedding of the `topo-ae-distances` repository pieces that the
claims concern:

* `src/exp/fit_competitor.py` — the Sacred-wrapped `train` function that
  fits a competitor model, persists artifacts, and runs the evaluation
  engine on a chosen data partition.
* `src/src/models/submodules.py` — the autoencoder / projection model
  classes, in particular their `forward` plumbing.

Modelling conventions:

* Real-valued tensors are flattened to `List ℚ`; 2-D arrays are
  `List (List ℚ)` (NumPy 2-D arrays are rectangular, so `shape[1]` is the
  length of any row; we read it off the first row).
* Learned `nn.Sequential` / `nn.Linear` submodules are abstracted as
  functions `Vec → Vec`: the claims are about the surrounding control and
  data flow, not about the numerical behaviour of the networks.
* The evaluation engine (`Multi_Evaluation.evaluate_space`, in
  `src/evaluation/eval.py`, which is not part of the given sources) is a
  parameter of `train`; `train` records the exact arguments it passes to
  it in the `evalCall` field of its output.
* File writes (`pickle.dump` to `model.pth`, `np.savez` to `latents.npz`,
  `visualize_latents` to `latent_visualization.pdf`) are modelled as an
  ordered list of emitted `Artifact`s.
* A model object is a record of optional methods: `hasattr(model, m)`
  becomes `Option.isSome`, and calling a missing `fit_transform` becomes
  an `Except.error` (Python raises `AttributeError`).
-/

abbrev Vec := List ℚ
abbrev Mat := List (List ℚ)
abbrev Labels := List ℤ
abbrev ResultMap := List (String × ℚ)

/-- A competitor model as seen by `train`: `transform` may be absent
(`hasattr(model, 'transform')`), and `fit_transform` may be absent (calling
it then raises `AttributeError`). -/
structure Model where
  transform : Option (Mat → Mat)
  fit_transform : Option (Mat → Mat)

/-- The `evaluation` config dict of `fit_competitor.py`
(`active`, `k`, `evaluate_on`). -/
structure EvalConfig where
  active : Bool
  k : Nat
  evaluate_on : String
deriving DecidableEq

/-- A Sacred run observer; `train` reads `observers[0].dir`. -/
structure Observer where
  dir : String
deriving DecidableEq

/-- The arguments `train` passes to `evaluator.evaluate_space`. -/
structure EvalArgs where
  data : Mat
  latent : Mat
  labels : Labels
  K : Nat
deriving DecidableEq

/-- A file written (or a visualization request emitted) by `train`. -/
inductive Artifact
  | modelFile (path : String)
  | latentsFile (path : String) (latents : Mat) (labels : Labels)
  | vizFile (path : String) (latents : Mat) (labels : Labels)
deriving DecidableEq

/-- Observable outcome of a successful `train` run: the returned result
mapping, the artifacts written, the log lines, the arguments of the
`evaluate_space` invocation (if any), the computed embedding (if any), and
the data matrix on which `fit_transform` was called. -/
structure TrainOutput where
  result : ResultMap
  artifacts : List Artifact
  logs : List String
  evalCall : Option EvalArgs
  latentOpt : Option Mat
  fitData : Mat
deriving DecidableEq

/-- `shape[1]` of a rectangular 2-D array. -/
def sndDim (m : Mat) : Nat := (m.headD []).length

/-- Embedding of `train` from `src/exp/fit_competitor.py` (lines 33-112).

The dataset split (`split_validation`, `get_instance`) is external glue:
`train` receives the three partitions directly, each an ordered list of
(sample, label) pairs; `np.stack(data).reshape(len(data), -1)` flattens
each sample, and samples are modelled as already-flat vectors.
`evaluateSpace` stands for `Multi_Evaluation(dataloader=None, seed=_seed,
model=None).evaluate_space` (external to the given sources). -/
def train (evaluation : EvalConfig) (model : Model)
    (train_dataset validation_dataset test_dataset : List (Vec × ℤ))
    (observers : List Observer)
    (evaluateSpace : Mat → Mat → Labels → Nat → ResultMap) :
    Except String TrainOutput :=
  let supports_transform := model.transform.isSome
  let dl := if supports_transform then train_dataset.unzip else test_dataset.unzip
  let data := dl.1
  let labels := dl.2
  let logs1 : List String :=
    if supports_transform then ["Fitting model..."]
    else ["Model does not support separate training and prediction.",
          "Directly running on test dataset!",
          "Fitting model..."]
  match model.fit_transform with
  | none => Except.error "AttributeError: the model object has no attribute fit_transform"
  | some fit_transform =>
    let transformed_data := fit_transform data
    let rundir : Option String := (observers.head?).map Observer.dir
    let modelArtifacts : List Artifact :=
      match rundir with
      | some d => [Artifact.modelFile (d ++ "/model.pth")]
      | none => []
    if evaluation.active then
      let evaluate_on := evaluation.evaluate_on
      let logs2 := logs1 ++ ["Running evaluation on " ++ evaluate_on ++ " dataset"]
      let dll : Mat × Labels × Mat :=
        match model.transform with
        | some transform =>
          let dl2 := if evaluate_on == "validation" then validation_dataset.unzip
                     else test_dataset.unzip
          (dl2.1, dl2.2, transform dl2.1)
        | none => (data, labels, transformed_data)
      let data2 := dll.1
      let labels2 := dll.2.1
      let latent := dll.2.2
      let latentsArtifacts : List Artifact :=
        match rundir with
        | some d => [Artifact.latentsFile (d ++ "/latents.npz") latent labels2]
        | none => []
      let vizArtifacts : List Artifact :=
        if sndDim latent == 2 then
          match rundir with
          | some d => [Artifact.vizFile (d ++ "/latent_visualization.pdf") latent labels2]
          | none => []
        else []
      let ev_result := evaluateSpace data2 latent labels2 evaluation.k
      let prefixed_ev_result := ev_result.map (fun kv => (evaluate_on ++ "_" ++ kv.1, kv.2))
      Except.ok
        { result := prefixed_ev_result
          artifacts := modelArtifacts ++ latentsArtifacts ++ vizArtifacts
          logs := logs2
          evalCall := some { data := data2, latent := latent, labels := labels2,
                             K := evaluation.k }
          latentOpt := some latent
          fitData := data }
    else
      Except.ok
        { result := []
          artifacts := modelArtifacts
          logs := logs1
          evalCall := none
          latentOpt := none
          fitData := data }

/-!
Embedding of `src/src/models/submodules.py`.

Each non-variational autoencoder class holds learned `encoder`/`decoder`
submodules (abstracted as functions on flattened tensors) and computes, in
`forward`, `reconst_error = nn.MSELoss()(x, decode(encode(x)))`, returning
`(reconst_error, dict with the single key 'reconstruction_error')`. The
dict is modelled as an association list.
-/

/-- `nn.MSELoss()` with default mean reduction: the mean of the squared
elementwise differences over all elements of the (flattened) tensors. -/
def mseLoss (x y : Vec) : ℚ :=
  ((List.zipWith (fun a b => (a - b) ^ 2) x y).sum) / (x.length : ℚ)

/-- `ConvolutionalAutoencoder` (submodules.py lines 14-59): learned
`encoder`/`decoder` `nn.Sequential` stacks abstracted as functions. -/
structure ConvolutionalAutoencoder where
  encoder : Vec → Vec
  decoder : Vec → Vec

def ConvolutionalAutoencoder.encode (m : ConvolutionalAutoencoder) (x : Vec) : Vec :=
  m.encoder x

def ConvolutionalAutoencoder.decode (m : ConvolutionalAutoencoder) (z : Vec) : Vec :=
  m.decoder z

def ConvolutionalAutoencoder.forward (m : ConvolutionalAutoencoder) (x : Vec) :
    ℚ × List (String × ℚ) :=
  let latent := m.encode x
  let x_reconst := m.decode latent
  let reconst_error := mseLoss x x_reconst
  (reconst_error, [("reconstruction_error", reconst_error)])

/-- `ConvolutionalAutoencoder_2D` (submodules.py lines 80-136). -/
structure ConvolutionalAutoencoder_2D where
  encoder : Vec → Vec
  decoder : Vec → Vec

def ConvolutionalAutoencoder_2D.encode (m : ConvolutionalAutoencoder_2D) (x : Vec) : Vec :=
  m.encoder x

def ConvolutionalAutoencoder_2D.decode (m : ConvolutionalAutoencoder_2D) (z : Vec) : Vec :=
  m.decoder z

def ConvolutionalAutoencoder_2D.forward (m : ConvolutionalAutoencoder_2D) (x : Vec) :
    ℚ × List (String × ℚ) :=
  let latent := m.encode x
  let x_reconst := m.decode latent
  let reconst_error := mseLoss x x_reconst
  (reconst_error, [("reconstruction_error", reconst_error)])

/-- `DeepAE` (submodules.py lines 139-195). -/
structure DeepAE where
  encoder : Vec → Vec
  decoder : Vec → Vec

def DeepAE.encode (m : DeepAE) (x : Vec) : Vec := m.encoder x

def DeepAE.decode (m : DeepAE) (z : Vec) : Vec := m.decoder z

def DeepAE.forward (m : DeepAE) (x : Vec) : ℚ × List (String × ℚ) :=
  let latent := m.encode x
  let x_reconst := m.decode latent
  let reconst_error := mseLoss x x_reconst
  (reconst_error, [("reconstruction_error", reconst_error)])

/-- `LinearAE` (submodules.py lines 197-234). -/
structure LinearAE where
  encoder : Vec → Vec
  decoder : Vec → Vec

def LinearAE.encode (m : LinearAE) (x : Vec) : Vec := m.encoder x

def LinearAE.decode (m : LinearAE) (z : Vec) : Vec := m.decoder z

def LinearAE.forward (m : LinearAE) (x : Vec) : ℚ × List (String × ℚ) :=
  let latent := m.encode x
  let x_reconst := m.decode latent
  let reconst_error := mseLoss x x_reconst
  (reconst_error, [("reconstruction_error", reconst_error)])

/-- `LinearAEOrtho` (submodules.py lines 236-281): the orthogonality
constraint (geotorch) only reparameterizes the encoder weights, so the
encoder is still just a function. -/
structure LinearAEOrtho where
  encoder : Vec → Vec
  decoder : Vec → Vec

def LinearAEOrtho.encode (m : LinearAEOrtho) (x : Vec) : Vec := m.encoder x

def LinearAEOrtho.decode (m : LinearAEOrtho) (z : Vec) : Vec := m.decoder z

def LinearAEOrtho.forward (m : LinearAEOrtho) (x : Vec) : ℚ × List (String × ℚ) :=
  let latent := m.encode x
  let x_reconst := m.decode latent
  let reconst_error := mseLoss x x_reconst
  (reconst_error, [("reconstruction_error", reconst_error)])

/-- `MLPAutoencoder` (submodules.py lines 330-384). -/
structure MLPAutoencoder where
  encoder : Vec → Vec
  decoder : Vec → Vec

def MLPAutoencoder.encode (m : MLPAutoencoder) (x : Vec) : Vec := m.encoder x

def MLPAutoencoder.decode (m : MLPAutoencoder) (z : Vec) : Vec := m.decoder z

def MLPAutoencoder.forward (m : MLPAutoencoder) (x : Vec) : ℚ × List (String × ℚ) :=
  let latent := m.encode x
  let x_reconst := m.decode latent
  let reconst_error := mseLoss x x_reconst
  (reconst_error, [("reconstruction_error", reconst_error)])

/-- `MLPAutoencoder_Spheres` (submodules.py lines 387-441). -/
structure MLPAutoencoder_Spheres where
  encoder : Vec → Vec
  decoder : Vec → Vec

def MLPAutoencoder_Spheres.encode (m : MLPAutoencoder_Spheres) (x : Vec) : Vec :=
  m.encoder x

def MLPAutoencoder_Spheres.decode (m : MLPAutoencoder_Spheres) (z : Vec) : Vec :=
  m.decoder z

def MLPAutoencoder_Spheres.forward (m : MLPAutoencoder_Spheres) (x : Vec) :
    ℚ × List (String × ℚ) :=
  let latent := m.encode x
  let x_reconst := m.decode latent
  let reconst_error := mseLoss x x_reconst
  (reconst_error, [("reconstruction_error", reconst_error)])

/-- `LinearAE_Spheres` (submodules.py lines 444-476). -/
structure LinearAE_Spheres where
  encoder : Vec → Vec
  decoder : Vec → Vec

def LinearAE_Spheres.encode (m : LinearAE_Spheres) (x : Vec) : Vec := m.encoder x

def LinearAE_Spheres.decode (m : LinearAE_Spheres) (z : Vec) : Vec := m.decoder z

def LinearAE_Spheres.forward (m : LinearAE_Spheres) (x : Vec) : ℚ × List (String × ℚ) :=
  let latent := m.encode x
  let x_reconst := m.decode latent
  let reconst_error := mseLoss x x_reconst
  (reconst_error, [("reconstruction_error", reconst_error)])

/-- `LinearAEOrtho_Spheres` (submodules.py lines 478-510). -/
structure LinearAEOrtho_Spheres where
  encoder : Vec → Vec
  decoder : Vec → Vec

def LinearAEOrtho_Spheres.encode (m : LinearAEOrtho_Spheres) (x : Vec) : Vec :=
  m.encoder x

def LinearAEOrtho_Spheres.decode (m : LinearAEOrtho_Spheres) (z : Vec) : Vec :=
  m.decoder z

def LinearAEOrtho_Spheres.forward (m : LinearAEOrtho_Spheres) (x : Vec) :
    ℚ × List (String × ℚ) :=
  let latent := m.encode x
  let x_reconst := m.decode latent
  let reconst_error := mseLoss x x_reconst
  (reconst_error, [("reconstruction_error", reconst_error)])

/-- `OrthoProjectionModel` (submodules.py lines 302-328): `n_projections`
linear submodules stored as name-indexed attributes `fc0, fc1, ...`
(modelled as the indexed family `fc`), plus the `View` flattening module.
`forward` appends `fc_i(flatten(x))` for `i = 0 .. n_projections - 1`. -/
structure OrthoProjectionModel where
  n_projections : Nat
  fc : Nat → Vec → Vec
  flatten : Vec → Vec

def OrthoProjectionModel.forward (m : OrthoProjectionModel) (x : Vec) : List Vec :=
  let x2 := m.flatten x
  (List.range m.n_projections).foldl (fun outputs i => outputs ++ [m.fc i x2]) []

/-!
Concrete inputs used by the witness theorems.
-/

/-- Config with evaluation switched off. -/
def cfgOff : EvalConfig := { active := false, k := 15, evaluate_on := "test" }

/-- Config with evaluation active on the test partition. -/
def cfgTest : EvalConfig := { active := true, k := 15, evaluate_on := "test" }

/-- A model exposing both `transform` and `fit_transform` (identity maps). -/
def idModel : Model := { transform := some id, fit_transform := some id }

/-- A model with `fit_transform` but no `transform` attribute. -/
def fitOnlyModel : Model := { transform := none, fit_transform := some id }

/-- A model missing `fit_transform` altogether. -/
def brokenModel : Model := { transform := none, fit_transform := none }

/-- A single observer whose run directory is `runs/1`. -/
def obsRun : List Observer := [{ dir := "runs/1" }]

def trData : List (Vec × ℤ) := [([5, 6], 0)]

def vaData : List (Vec × ℤ) := [([7, 8], 1)]

def teData : List (Vec × ℤ) := [([1, 2], 0), ([3, 4], 1)]

/-- A constant stand-in for the external `evaluate_space`. -/
def esConst : Mat → Mat → Labels → Nat → ResultMap := fun _ _ _ _ => [("metric", 1)]

/-- Config with evaluation active and `evaluate_on = 'validation'`. -/
def cfgVal : EvalConfig := { active := true, k := 1, evaluate_on := "validation" }

/-- A model whose `transform` and `fit_transform` are literally row-wise
maps (each output row is the embedding of the input row at the same
index). -/
def rowMapModel : Model :=
  { transform := some (fun rows => rows.map id),
    fit_transform := some (fun rows => rows.map id) }

/-- The output of `train cfgTest idModel trData vaData teData obsRun
esConst` (also of the same run with `rowMapModel`). -/
def outEvalTest : TrainOutput :=
  { result := [("test_metric", 1)]
    artifacts := [Artifact.modelFile "runs/1/model.pth",
      Artifact.latentsFile "runs/1/latents.npz" [[1, 2], [3, 4]] [0, 1],
      Artifact.vizFile "runs/1/latent_visualization.pdf" [[1, 2], [3, 4]] [0, 1]]
    logs := ["Fitting model...", "Running evaluation on test dataset"]
    evalCall := some { data := [[1, 2], [3, 4]], latent := [[1, 2], [3, 4]],
                       labels := [0, 1], K := 15 }
    latentOpt := some [[1, 2], [3, 4]]
    fitData := [[5, 6]] }

/-- The output of `train cfgTest idModel trData vaData teData [] esConst`
(no observers). -/
def outNoObs : TrainOutput :=
  { result := [("test_metric", 1)]
    artifacts := []
    logs := ["Fitting model...", "Running evaluation on test dataset"]
    evalCall := some { data := [[1, 2], [3, 4]], latent := [[1, 2], [3, 4]],
                       labels := [0, 1], K := 15 }
    latentOpt := some [[1, 2], [3, 4]]
    fitData := [[5, 6]] }

/-- Claim C10: when `evaluation['active']` is false, `train` returns the
empty result mapping, never invokes `evaluate_space` or the latent
visualization, and writes only the serialized model (and that only when a
run directory exists). -/
theorem train_inactive_c10 (evaluation : EvalConfig) (model : Model)
    (trD vaD teD : List (Vec × ℤ)) (obs : List Observer)
    (es : Mat → Mat → Labels → Nat → ResultMap) (out : TrainOutput)
    (hact : evaluation.active = false)
    (h : train evaluation model trD vaD teD obs es = Except.ok out) :
    out.result = [] ∧ out.evalCall = none ∧ out.latentOpt = none ∧
    out.artifacts = (match (obs.head?).map Observer.dir with
      | some d => [Artifact.modelFile (d ++ "/model.pth")]
      | none => []) := by
  obtain ⟨t, ftOpt⟩ := model
  cases ftOpt with
  | none => simp [train] at h
  | some ft =>
    simp only [train, hact, Bool.false_eq_true, if_false] at h
    cases h
    refine ⟨rfl, rfl, rfl, ?_⟩
    cases obs <;> rfl

/-- Witness for C10 at a concrete inactive run. -/
theorem train_inactive_c10_witness :
    cfgOff.active = false ∧
    train cfgOff idModel trData vaData teData obsRun esConst =
      Except.ok { result := [], artifacts := [Artifact.modelFile "runs/1/model.pth"],
                  logs := ["Fitting model..."], evalCall := none, latentOpt := none,
                  fitData := [[5, 6]] } ∧
    ({ result := [], artifacts := [Artifact.modelFile "runs/1/model.pth"],
       logs := ["Fitting model..."], evalCall := none, latentOpt := none,
       fitData := [[5, 6]] } : TrainOutput).result = [] :=
  ⟨rfl, by rfl,
   (train_inactive_c10 cfgOff idModel trData vaData teData obsRun esConst _
      rfl (by rfl)).1⟩

/-- Claim C4: a model without `fit_transform` makes `train` fail with a
surfaced error before any metric is computed or any evaluation result is
produced. -/
theorem train_missing_fit_transform_c4 (evaluation : EvalConfig) (model : Model)
    (trD vaD teD : List (Vec × ℤ)) (obs : List Observer)
    (es : Mat → Mat → Labels → Nat → ResultMap)
    (hft : model.fit_transform = none) :
    train evaluation model trD vaD teD obs es =
      Except.error "AttributeError: the model object has no attribute fit_transform" := by
  obtain ⟨t, ftOpt⟩ := model
  cases hft
  rfl

/-- Witness for C4 at a concrete model lacking `fit_transform`. -/
theorem train_missing_fit_transform_c4_witness :
    brokenModel.fit_transform = none ∧
    train cfgTest brokenModel trData vaData teData obsRun esConst =
      Except.error "AttributeError: the model object has no attribute fit_transform" :=
  ⟨rfl, train_missing_fit_transform_c4 cfgTest brokenModel trData vaData teData obsRun
     esConst rfl⟩

/-- Accumulating a list by appending one element per index equals `map`. -/
theorem foldl_append_singleton {α β : Type} (g : α → β) :
    ∀ (l : List α) (acc : List β),
      l.foldl (fun a i => a ++ [g i]) acc = acc ++ l.map g
  | [], acc => by simp
  | x :: xs, acc => by
    simp only [List.foldl_cons, List.map_cons, foldl_append_singleton g xs,
      List.append_assoc, List.singleton_append]

/-- Claim C7: `OrthoProjectionModel.forward` returns exactly
`n_projections` outputs, the `i`-th being the `i`-th name-indexed linear
submodule applied to the flattened input, in ascending index order — i.e.
the map of `fun i => fc i (flatten x)` over `0 .. n_projections - 1`. -/
theorem ortho_projection_forward_c7 (m : OrthoProjectionModel) (x : Vec) :
    m.forward x = (List.range m.n_projections).map (fun i => m.fc i (m.flatten x)) ∧
    (m.forward x).length = m.n_projections := by
  have hmap : m.forward x =
      (List.range m.n_projections).map (fun i => m.fc i (m.flatten x)) := by
    simp [OrthoProjectionModel.forward, foldl_append_singleton]
  exact ⟨hmap, by simp [hmap]⟩

/-- Claim C8: every non-variational autoencoder class returns from
`forward` the pair `(e, singleton map from reconstruction_error to e)`
where `e` is the mean-squared error between the input and
`decode(encode(input))`. -/
theorem ae_forward_reconstruction_c8 :
    (∀ (m : ConvolutionalAutoencoder) (x : Vec),
      m.forward x = (mseLoss x (m.decode (m.encode x)),
        [("reconstruction_error", mseLoss x (m.decode (m.encode x)))])) ∧
    (∀ (m : ConvolutionalAutoencoder_2D) (x : Vec),
      m.forward x = (mseLoss x (m.decode (m.encode x)),
        [("reconstruction_error", mseLoss x (m.decode (m.encode x)))])) ∧
    (∀ (m : DeepAE) (x : Vec),
      m.forward x = (mseLoss x (m.decode (m.encode x)),
        [("reconstruction_error", mseLoss x (m.decode (m.encode x)))])) ∧
    (∀ (m : LinearAE) (x : Vec),
      m.forward x = (mseLoss x (m.decode (m.encode x)),
        [("reconstruction_error", mseLoss x (m.decode (m.encode x)))])) ∧
    (∀ (m : LinearAEOrtho) (x : Vec),
      m.forward x = (mseLoss x (m.decode (m.encode x)),
        [("reconstruction_error", mseLoss x (m.decode (m.encode x)))])) ∧
    (∀ (m : MLPAutoencoder) (x : Vec),
      m.forward x = (mseLoss x (m.decode (m.encode x)),
        [("reconstruction_error", mseLoss x (m.decode (m.encode x)))])) ∧
    (∀ (m : MLPAutoencoder_Spheres) (x : Vec),
      m.forward x = (mseLoss x (m.decode (m.encode x)),
        [("reconstruction_error", mseLoss x (m.decode (m.encode x)))])) ∧
    (∀ (m : LinearAE_Spheres) (x : Vec),
      m.forward x = (mseLoss x (m.decode (m.encode x)),
        [("reconstruction_error", mseLoss x (m.decode (m.encode x)))])) ∧
    (∀ (m : LinearAEOrtho_Spheres) (x : Vec),
      m.forward x = (mseLoss x (m.decode (m.encode x)),
        [("reconstruction_error", mseLoss x (m.decode (m.encode x)))])) :=
  ⟨fun _ _ => rfl, fun _ _ => rfl, fun _ _ => rfl, fun _ _ => rfl, fun _ _ => rfl,
   fun _ _ => rfl, fun _ _ => rfl, fun _ _ => rfl, fun _ _ => rfl⟩

/-- Claim C2: when the model lacks `transform`, `train` fits on the test
dataset, logs the reduced-validity warnings, and (when evaluation is
active) passes to `evaluate_space` exactly the fitting data together with
the `fit_transform` output on that same data. -/
theorem train_no_transform_fallback_c2 (evaluation : EvalConfig) (model : Model)
    (trD vaD teD : List (Vec × ℤ)) (obs : List Observer)
    (es : Mat → Mat → Labels → Nat → ResultMap) (out : TrainOutput)
    (ft : Mat → Mat)
    (htr : model.transform = none)
    (hft : model.fit_transform = some ft)
    (h : train evaluation model trD vaD teD obs es = Except.ok out) :
    out.fitData = teD.unzip.1 ∧
    "Model does not support separate training and prediction." ∈ out.logs ∧
    "Directly running on test dataset!" ∈ out.logs ∧
    (evaluation.active = true →
      out.evalCall = some { data := teD.unzip.1, latent := ft teD.unzip.1,
                            labels := teD.unzip.2, K := evaluation.k }) := by
  obtain ⟨t, ftOpt⟩ := model
  cases htr
  cases hft
  cases hact : evaluation.active with
  | false =>
    simp only [train, hact, Bool.false_eq_true, if_false] at h
    cases h
    refine ⟨by simp, by simp, by simp, ?_⟩
    intro hcontra
    exact absurd hcontra (by simp)
  | true =>
    simp only [train, hact, if_true] at h
    cases h
    exact ⟨by simp, by simp, by simp, fun _ => by simp⟩

/-- Witness for C2 at a concrete transform-less model with active
evaluation. -/
theorem train_no_transform_fallback_c2_witness :
    fitOnlyModel.transform = none ∧
    fitOnlyModel.fit_transform = some id ∧
    train cfgTest fitOnlyModel trData vaData teData obsRun esConst =
      Except.ok
        { result := [("test_metric", 1)]
          artifacts := [Artifact.modelFile "runs/1/model.pth",
            Artifact.latentsFile "runs/1/latents.npz" [[1, 2], [3, 4]] [0, 1],
            Artifact.vizFile "runs/1/latent_visualization.pdf" [[1, 2], [3, 4]] [0, 1]]
          logs := ["Model does not support separate training and prediction.",
                   "Directly running on test dataset!",
                   "Fitting model...",
                   "Running evaluation on test dataset"]
          evalCall := some { data := [[1, 2], [3, 4]], latent := [[1, 2], [3, 4]],
                             labels := [0, 1], K := 15 }
          latentOpt := some [[1, 2], [3, 4]]
          fitData := [[1, 2], [3, 4]] } ∧
    "Model does not support separate training and prediction." ∈
      (["Model does not support separate training and prediction.",
        "Directly running on test dataset!",
        "Fitting model...",
        "Running evaluation on test dataset"] : List String) :=
  ⟨rfl, rfl, by rfl,
   (train_no_transform_fallback_c2 cfgTest fitOnlyModel trData vaData teData obsRun
      esConst _ id rfl rfl (by rfl)).2.1⟩

/-- Claim C3: with evaluation active and a run directory available, the
latent visualization is emitted at `latent_visualization.pdf` under the
run directory exactly when the embedding's second dimension is 2; for any
other dimensionality no visualization request is emitted. -/
theorem train_latent_viz_c3 (evaluation : EvalConfig) (model : Model)
    (trD vaD teD : List (Vec × ℤ)) (obs : List Observer)
    (es : Mat → Mat → Labels → Nat → ResultMap) (out : TrainOutput)
    (d : String) (L : Mat)
    (hact : evaluation.active = true)
    (hrd : (obs.head?).map Observer.dir = some d)
    (h : train evaluation model trD vaD teD obs es = Except.ok out)
    (hl : out.latentOpt = some L) :
    (sndDim L = 2 →
      ∃ lab, Artifact.vizFile (d ++ "/latent_visualization.pdf") L lab ∈ out.artifacts) ∧
    (sndDim L ≠ 2 →
      ∀ p l2 lab, Artifact.vizFile p l2 lab ∉ out.artifacts) := by
  obtain ⟨t, ftOpt⟩ := model
  cases ftOpt with
  | none => simp [train] at h
  | some ft =>
    cases obs with
    | nil => simp at hrd
    | cons o rest =>
      simp only [List.head?_cons, Option.map_some', Option.some.injEq] at hrd
      subst hrd
      cases t with
      | none =>
        simp only [train, hact, if_true] at h
        cases h
        simp only [Option.some.injEq] at hl
        subst hl
        constructor
        · intro h2
          simp only [sndDim] at h2 ⊢
          simp at h2
          simp [h2, List.mem_append]
        · intro h2 p l2 lab
          simp at h2
          simp [List.mem_append, beq_iff_eq, h2]
      | some tf =>
        cases hval : evaluation.evaluate_on == "validation" with
        | true =>
          simp only [train, hact, hval, if_true] at h
          cases h
          simp only [Option.some.injEq] at hl
          subst hl
          constructor
          · intro h2
            simp only [sndDim] at h2 ⊢
            simp at h2
            simp [h2, List.mem_append]
          · intro h2 p l2 lab
            simp at h2
            simp [List.mem_append, beq_iff_eq, h2]
        | false =>
          simp only [train, hact, hval, Bool.false_eq_true, if_false, if_true] at h
          cases h
          simp only [Option.some.injEq] at hl
          subst hl
          constructor
          · intro h2
            simp only [sndDim] at h2 ⊢
            simp at h2
            simp [h2, List.mem_append]
          · intro h2 p l2 lab
            simp at h2
            simp [List.mem_append, beq_iff_eq, h2]

/-- Witness for C3 at a concrete run: 2-column embedding, observer with
run directory `runs/1`. -/
theorem train_latent_viz_c3_witness :
    cfgTest.active = true ∧
    (obsRun.head?).map Observer.dir = some "runs/1" ∧
    train cfgTest idModel trData vaData teData obsRun esConst = Except.ok outEvalTest ∧
    outEvalTest.latentOpt = some [[1, 2], [3, 4]] ∧
    ((sndDim [[1, 2], [3, 4]] = 2 →
      ∃ lab, Artifact.vizFile ("runs/1" ++ "/latent_visualization.pdf")
        [[1, 2], [3, 4]] lab ∈ outEvalTest.artifacts) ∧
     (sndDim [[1, 2], [3, 4]] ≠ 2 →
      ∀ p l2 lab, Artifact.vizFile p l2 lab ∉ outEvalTest.artifacts)) :=
  ⟨rfl, rfl, by rfl, rfl,
   train_latent_viz_c3 cfgTest idModel trData vaData teData obsRun esConst outEvalTest
     "runs/1" [[1, 2], [3, 4]] rfl rfl (by rfl) rfl⟩

/-- Claim C5: in every `evaluate_space` invocation made by `train`, the
data and latent arrays have equal length and are index-aligned, assuming
`transform` / `fit_transform` act row-wise in input order (modelled as
literal `List.map`s of a row function). -/
theorem train_eval_alignment_c5 (evaluation : EvalConfig) (model : Model)
    (trD vaD teD : List (Vec × ℤ)) (obs : List Observer)
    (es : Mat → Mat → Labels → Nat → ResultMap) (out : TrainOutput) (c : EvalArgs)
    (f g : Vec → Vec)
    (htr : model.transform = none ∨ model.transform = some (fun rows => rows.map f))
    (hft : model.fit_transform = some (fun rows => rows.map g))
    (h : train evaluation model trD vaD teD obs es = Except.ok out)
    (hc : out.evalCall = some c) :
    c.latent = c.data.map (if model.transform.isSome then f else g) ∧
    c.latent.length = c.data.length := by
  obtain ⟨t, ftOpt⟩ := model
  cases hft
  cases hact : evaluation.active with
  | false =>
    simp only [train, hact, Bool.false_eq_true, if_false] at h
    cases h
    simp at hc
  | true =>
    rcases htr with htr | htr
    · have ht : t = none := htr
      subst ht
      simp only [train, hact, if_true] at h
      cases h
      simp only [Option.some.injEq] at hc
      subst hc
      exact ⟨by simp, by simp⟩
    · have ht : t = some (fun rows => rows.map f) := htr
      subst ht
      simp only [train, hact, if_true] at h
      cases h
      simp only [Option.some.injEq] at hc
      subst hc
      exact ⟨by simp, by simp⟩

/-- Witness for C5 at a concrete row-wise model. -/
theorem train_eval_alignment_c5_witness :
    (rowMapModel.transform = none ∨
      rowMapModel.transform = some (fun rows => rows.map (id : Vec → Vec))) ∧
    rowMapModel.fit_transform = some (fun rows => rows.map (id : Vec → Vec)) ∧
    train cfgTest rowMapModel trData vaData teData obsRun esConst =
      Except.ok outEvalTest ∧
    outEvalTest.evalCall = some { data := [[1, 2], [3, 4]], latent := [[1, 2], [3, 4]],
                                  labels := [0, 1], K := 15 } ∧
    (({ data := [[1, 2], [3, 4]], latent := [[1, 2], [3, 4]],
        labels := [0, 1], K := 15 } : EvalArgs).latent =
      ({ data := [[1, 2], [3, 4]], latent := [[1, 2], [3, 4]],
         labels := [0, 1], K := 15 } : EvalArgs).data.map
        (if rowMapModel.transform.isSome then (id : Vec → Vec) else id) ∧
     ({ data := [[1, 2], [3, 4]], latent := [[1, 2], [3, 4]],
        labels := [0, 1], K := 15 } : EvalArgs).latent.length =
      ({ data := [[1, 2], [3, 4]], latent := [[1, 2], [3, 4]],
         labels := [0, 1], K := 15 } : EvalArgs).data.length) :=
  ⟨Or.inr rfl, rfl, by rfl, rfl,
   train_eval_alignment_c5 cfgTest rowMapModel trData vaData teData obsRun esConst
     outEvalTest _ id id (Or.inr rfl) rfl (by rfl) rfl⟩

/-- Claim C6: with a run directory (the first observer's directory), the
serialized model is written to `model.pth` there, and when evaluation
runs, the embedding plus labels go to `latents.npz` there. -/
theorem train_artifacts_rundir_c6 (evaluation : EvalConfig) (model : Model)
    (trD vaD teD : List (Vec × ℤ)) (obs : List Observer)
    (es : Mat → Mat → Labels → Nat → ResultMap) (out : TrainOutput) (d : String)
    (hrd : (obs.head?).map Observer.dir = some d)
    (h : train evaluation model trD vaD teD obs es = Except.ok out) :
    Artifact.modelFile (d ++ "/model.pth") ∈ out.artifacts ∧
    (∀ c, out.evalCall = some c →
      Artifact.latentsFile (d ++ "/latents.npz") c.latent c.labels ∈ out.artifacts) := by
  obtain ⟨t, ftOpt⟩ := model
  cases ftOpt with
  | none => simp [train] at h
  | some ft =>
    cases obs with
    | nil => simp at hrd
    | cons o rest =>
      simp only [List.head?_cons, Option.map_some', Option.some.injEq] at hrd
      subst hrd
      cases hact : evaluation.active with
      | false =>
        simp only [train, hact, Bool.false_eq_true, if_false] at h
        cases h
        exact ⟨by simp, fun c hc => by simp at hc⟩
      | true =>
        simp only [train, hact, if_true] at h
        cases h
        refine ⟨by simp, fun c hc => ?_⟩
        simp only [Option.some.injEq] at hc
        subst hc
        simp [List.mem_append]

/-- Witness for C6 at a concrete run with observer directory `runs/1`. -/
theorem train_artifacts_rundir_c6_witness :
    (obsRun.head?).map Observer.dir = some "runs/1" ∧
    train cfgTest idModel trData vaData teData obsRun esConst = Except.ok outEvalTest ∧
    (Artifact.modelFile ("runs/1" ++ "/model.pth") ∈ outEvalTest.artifacts ∧
     (∀ c, outEvalTest.evalCall = some c →
       Artifact.latentsFile ("runs/1" ++ "/latents.npz") c.latent c.labels ∈
         outEvalTest.artifacts)) :=
  ⟨rfl, by rfl,
   train_artifacts_rundir_c6 cfgTest idModel trData vaData teData obsRun esConst
     outEvalTest "runs/1" rfl (by rfl)⟩

/-- Claim C9: with no observers, `train` writes no artifacts at all, and
the returned result mapping is the same as it would be with any observer
list. -/
theorem train_no_observers_c9 (evaluation : EvalConfig) (model : Model)
    (trD vaD teD : List (Vec × ℤ))
    (es : Mat → Mat → Labels → Nat → ResultMap) (out : TrainOutput)
    (h : train evaluation model trD vaD teD [] es = Except.ok out) :
    out.artifacts = [] ∧
    ∀ (obs : List Observer) (out2 : TrainOutput),
      train evaluation model trD vaD teD obs es = Except.ok out2 →
      out2.result = out.result := by
  obtain ⟨t, ftOpt⟩ := model
  cases ftOpt with
  | none => simp [train] at h
  | some ft =>
    cases hact : evaluation.active with
    | false =>
      simp only [train, hact, Bool.false_eq_true, if_false] at h
      cases h
      refine ⟨rfl, ?_⟩
      intro obs out2 h2
      simp only [train, hact, Bool.false_eq_true, if_false] at h2
      cases h2
      rfl
    | true =>
      simp only [train, hact, if_true] at h
      cases h
      refine ⟨by simp, ?_⟩
      intro obs out2 h2
      simp only [train, hact, if_true] at h2
      cases h2
      rfl

/-- Witness for C9 at a concrete observer-less run. -/
theorem train_no_observers_c9_witness :
    train cfgTest idModel trData vaData teData [] esConst = Except.ok outNoObs ∧
    (outNoObs.artifacts = [] ∧
     ∀ (obs : List Observer) (out2 : TrainOutput),
       train cfgTest idModel trData vaData teData obs esConst = Except.ok out2 →
       out2.result = outNoObs.result) :=
  ⟨by rfl,
   train_no_observers_c9 cfgTest idModel trData vaData teData esConst outNoObs (by rfl)⟩

/-- Claim C1 (amended): with evaluation active, every key of the returned
mapping is the metric name prefixed by the configured `evaluate_on` string
and an underscore; the points actually passed to `evaluate_space` are the
validation partition exactly when the model supports `transform` and
`evaluate_on` is `'validation'`, and the test partition otherwise — so the
prefix need not name the partition actually evaluated. -/
theorem train_result_keys_c1 (evaluation : EvalConfig) (model : Model)
    (trD vaD teD : List (Vec × ℤ)) (obs : List Observer)
    (es : Mat → Mat → Labels → Nat → ResultMap) (out : TrainOutput)
    (hact : evaluation.active = true)
    (h : train evaluation model trD vaD teD obs es = Except.ok out) :
    ∃ c, out.evalCall = some c ∧
      out.result = (es c.data c.latent c.labels c.K).map
        (fun kv => (evaluation.evaluate_on ++ "_" ++ kv.1, kv.2)) ∧
      c.data = (if model.transform.isSome && (evaluation.evaluate_on == "validation")
                then vaD.unzip.1 else teD.unzip.1) ∧
      c.K = evaluation.k := by
  obtain ⟨t, ftOpt⟩ := model
  cases ftOpt with
  | none => simp [train] at h
  | some ft =>
    cases t with
    | none =>
      simp only [train, hact, if_true] at h
      cases h
      refine ⟨_, rfl, by simp, by simp, rfl⟩
    | some tf =>
      cases hval : evaluation.evaluate_on == "validation" with
      | true =>
        simp only [train, hact, hval, if_true] at h
        cases h
        refine ⟨_, rfl, by simp, by simp [hval], rfl⟩
      | false =>
        simp only [train, hact, hval, Bool.false_eq_true, if_false, if_true] at h
        cases h
        refine ⟨_, rfl, by simp, by simp [hval], rfl⟩

/-- Witness for the amended C1 at a concrete active run. -/
theorem train_result_keys_c1_witness :
    cfgTest.active = true ∧
    train cfgTest idModel trData vaData teData obsRun esConst = Except.ok outEvalTest ∧
    (∃ c, outEvalTest.evalCall = some c ∧
      outEvalTest.result = (esConst c.data c.latent c.labels c.K).map
        (fun kv => (cfgTest.evaluate_on ++ "_" ++ kv.1, kv.2)) ∧
      c.data = (if idModel.transform.isSome && (cfgTest.evaluate_on == "validation")
                then vaData.unzip.1 else teData.unzip.1) ∧
      c.K = cfgTest.k) :=
  ⟨rfl, by rfl,
   train_result_keys_c1 cfgTest idModel trData vaData teData obsRun esConst
     outEvalTest rfl (by rfl)⟩

/-- Counterexample to C1 as stated: a transform-less model with
`evaluate_on = 'validation'` produces keys prefixed `validation_` while the
points actually passed to `evaluate_space` are the test partition's, which
differ from the validation partition's. -/
theorem train_result_keys_c1_cex :
    ∃ out, train cfgVal fitOnlyModel trData vaData teData [] esConst = Except.ok out ∧
      out.result = [("validation_metric", 1)] ∧
      out.evalCall = some { data := [[1, 2], [3, 4]], latent := [[1, 2], [3, 4]],
                            labels := [0, 1], K := 1 } ∧
      teData.unzip.1 = [[1, 2], [3, 4]] ∧
      vaData.unzip.1 = [[7, 8]] ∧
      ([[1, 2], [3, 4]] : Mat) ≠ vaData.unzip.1 :=
  ⟨_, rfl, by rfl, by rfl, by rfl, by rfl, by decide⟩
